import Mathlib

/-!
# StockSense staged analysis pipeline — shallow embedding

A Lean embedding of the core analytic stages of the StockSense engine
(`stock_gita_engine_charts/core/`): regime identification, pre-trade
qualification gates, confidence scoring, signal generation, options
parameter selection, and support/resistance zone clustering.

Modelling conventions:
* Python floats are modelled as `ℚ`; integer scores as `ℤ`.
  (Binary-floating-point rounding artefacts, including the exact
  tie-breaking of Python's `round`, are abstracted.)
* Python dict lookups with defaults are modelled as record fields;
  a key that may be absent or `None` is an `Option` field.
* Python truthiness of a numeric-or-`None` value (`if x and y:`) is
  `truthyQ`: `none` and `0` are falsy.
* Code that raises at runtime is modelled with `Except PyError`.
-/

set_option linter.unusedVariables false

namespace StockSense

/-- Runtime errors the embedded Python code can raise. -/
inductive PyError
  | typeError
  | nameError
  | keyError
  deriving DecidableEq, Repr

/-- Regime labels produced by `RegimeIdentificationEngine.identify_regime`. -/
inductive Regime
  | BULLISH
  | BEARISH
  | SIDEWAYS
  | TRANSITION
  deriving DecidableEq, Repr

/-- Trade direction strings used by the qualifier and signal generator. -/
inductive Direction
  | LONG
  | SHORT
  | WAIT
  | NEUTRAL
  deriving DecidableEq, Repr

/-- Trend labels attached to each timeframe's indicator snapshot
(the `trend` field computed by `calculate_all_indicators`). -/
inductive TfTrend
  | BULLISH
  | BEARISH
  | WEAK_BULLISH
  | WEAK_BEARISH
  | NEUTRAL
  deriving DecidableEq, Repr

/-- `wave_type` values produced by `_detect_autowaves`:
`'none'` (too few bars), `'NEUTRAL'`, `'UP'`, `'DOWN'`. -/
inductive WaveType
  | NONE
  | NEUTRAL
  | UP
  | DOWN
  deriving DecidableEq, Repr

/-- One OHLCV bar (`{date, open, high, low, close, volume}`). -/
structure Bar where
  date : String
  «open» : ℚ
  high : ℚ
  low : ℚ
  close : ℚ
  volume : ℚ
  deriving DecidableEq, Repr

/-- The fields of the indicator snapshot dict returned by
`TechnicalIndicatorCalculator.calculate_all_indicators` that the
downstream stages (regime, qualifier, confidence, signal, options)
actually read.  Moving averages are `Option ℚ`: `none` models a
missing dict key (`.get` default). -/
structure Indicators where
  MA_13 : Option ℚ
  MA_21 : Option ℚ
  MA_34 : Option ℚ
  MA_55 : Option ℚ
  MA_233 : Option ℚ
  bb_upper : ℚ
  bb_middle : ℚ
  bb_lower : ℚ
  bb_width : ℚ
  bb_position : ℚ
  rsi : ℚ
  macd_histogram : ℚ
  histogram_expanding : Bool
  srsi_extreme : Bool
  wave_type : WaveType
  line_2_level : Option ℚ
  trend_strength : ℚ
  deriving DecidableEq, Repr

/-- Python truthiness of a numeric dict entry: `None` and `0` are falsy. -/
def truthyQ : Option ℚ → Bool
  | none => false
  | some v => v ≠ 0

/-- Value of a numeric dict entry under a `.get(key, 0)` default. -/
def qval : Option ℚ → ℚ
  | none => 0
  | some v => v

/-- Calendar context fields read by the qualifier and confidence scorer:
`expansion_window.active` and `earnings_check.is_sensitive`
(missing keys default to falsy). -/
structure CalData where
  expansion_active : Bool
  earnings_sensitive : Bool
  deriving DecidableEq, Repr

/-- Support/resistance level lists inside `phase_6_sli['zones']`.
`Option Zones` at use sites models the possibly-empty dict
returned by `detect_sli` on short inputs. -/
structure Zones where
  support : List ℚ
  resistance : List ℚ
  deriving DecidableEq, Repr

/-- Regime engine result: `{regime, confidence, reason}`. -/
structure RegimeData where
  regime : Regime
  confidence : ℚ
  reason : String
  deriving DecidableEq, Repr

/-- Qualification status strings. -/
inductive QualStatus
  | BLOCKED
  | QUALIFIED
  | UNQUALIFIED
  deriving DecidableEq, Repr

/-- Structured rendering of the gate-failure reason strings built in
`gate_checks.py` (the numeric interpolation of the f-strings is kept
as data rather than re-formatted text). -/
inductive GateReason
  | noSliZones
  | noLevelsFor (d : Direction)
  | priceNotAtLevel (nearest : ℚ) (distPct : ℚ)
  | timeframeMismatch (daily weekly : TfTrend)
  deriving DecidableEq, Repr

/-- Result dict of one hard gate (`check_sli_governance` /
`check_timeframe_alignment`).  Optional fields model keys present
only on some branches. -/
structure GateResult where
  passed : Bool
  reason : Option GateReason
  level : Option ℚ
  distance_pct : Option ℚ
  trend : Option TfTrend
  deriving DecidableEq, Repr

/-- Block reason wrapper: `f"SLI Gate Failed: {...}"` /
`f"Timeframe Gate Failed: {...}"`. -/
inductive BlockReason
  | sliGateFailed (r : Option GateReason)
  | timeframeGateFailed (r : Option GateReason)
  deriving DecidableEq, Repr

/-- Result dict of `PreTradeQualificationSystem.qualify_for_trade`.
`checks` lists the seven numbered confluence entries in evaluation
order (empty on the blocked paths, where they are never computed). -/
structure Qualification where
  qualification_status : QualStatus
  reason : Option BlockReason
  passed_checks : ℕ
  total_checks : ℕ
  gate_1_sli : GateResult
  gate_2_timeframe : GateResult
  checks : List (String × Bool)
  deriving DecidableEq, Repr

/-- Result dict of `ConfidenceScoringEngine.calculate_confidence`. -/
structure ConfidenceResult where
  final_confidence : ℤ
  adjustments : List (String × String)
  is_approved : Bool
  deriving DecidableEq, Repr

/-! ## Confidence scorer (`core/confidence.py`) -/

/-- `# 1. Calendar` section of `calculate_confidence`. -/
def calendarAdjust (calendar_data : Option CalData) (sa : ℤ × List (String × String)) :
    ℤ × List (String × String) :=
  match calendar_data with
  | none => sa
  | some cal =>
    let sa := if cal.expansion_active then
        (sa.1 + 10, sa.2 ++ [("Calendar Boost", "+10%")]) else sa
    if cal.earnings_sensitive then
      (sa.1 - 20, sa.2 ++ [("Earnings Risk", "-20%")]) else sa

/-- `# 2. Confluence (Qualification)` section: −5 per missing check. -/
def confluenceAdjust (passed total : ℤ) (sa : ℤ × List (String × String)) :
    ℤ × List (String × String) :=
  let missing := total - passed
  if missing > 0 then
    let penalty := missing * 5
    (sa.1 - penalty, sa.2 ++ [(s!"Missing Confluence ({missing})", s!"-{penalty}%")])
  else sa

/-- `# 3. Regime` section: −10 for TRANSITION, −20 for SIDEWAYS. -/
def regimeAdjust (regime : Regime) (sa : ℤ × List (String × String)) :
    ℤ × List (String × String) :=
  match regime with
  | .TRANSITION => (sa.1 - 10, sa.2 ++ [("Regime Transition", "-10%")])
  | .SIDEWAYS => (sa.1 - 20, sa.2 ++ [("Regime Sideways", "-20%")])
  | _ => sa

/-- `# 4. Trend Strength` section: +10 if ADX>25, −10 if ADX<15. -/
def adxAdjust (adx : ℚ) (sa : ℤ × List (String × String)) :
    ℤ × List (String × String) :=
  if adx > 25 then (sa.1 + 10, sa.2 ++ [("Strong Trend (ADX>25)", "+10%")])
  else if adx < 15 then (sa.1 - 10, sa.2 ++ [("Weak Trend (ADX<15)", "-10%")])
  else sa

/-- Score/adjustment accumulation of `calculate_confidence`, starting
from `base_confidence = 60`, in source order. -/
def confAdjust (calendar_data : Option CalData) (qual_data : Qualification)
    (regime_data : RegimeData) (indicators : Indicators) :
    ℤ × List (String × String) :=
  adxAdjust indicators.trend_strength
    (regimeAdjust regime_data.regime
      (confluenceAdjust (qual_data.passed_checks : ℤ) (qual_data.total_checks : ℤ)
        (calendarAdjust calendar_data (60, []))))

/-- `ConfidenceScoringEngine.calculate_confidence`: apply the ordered
adjustments, clamp to [0,100], approve at ≥60. -/
def calculate_confidence (calendar_data : Option CalData) (qual_data : Qualification)
    (regime_data : RegimeData) (indicators : Indicators) : ConfidenceResult :=
  let sa := confAdjust calendar_data qual_data regime_data indicators
  let final_score := max 0 (min 100 sa.1)
  { final_confidence := final_score
    adjustments := sa.2
    is_approved := decide (final_score ≥ 60) }

/-! ## Hard gates (`core/gate_checks.py`) -/

/-- Nearest-level scan of `check_sli_governance`: keep the first level
attaining the strictly smallest relative distance (the Python loop
starts from `nearest_dist = inf`, so the first element always wins the
first comparison; the accumulator therefore starts at the head). -/
def scanNearest (current_price : ℚ) : List ℚ → ℚ × ℚ → ℚ × ℚ
  | [], acc => acc
  | level :: rest, acc =>
    let dist := |current_price - level| / current_price
    if dist < acc.1 then scanNearest current_price rest (dist, level)
    else scanNearest current_price rest acc

/-- `check_sli_governance(current_price, sli_zones, direction, tolerance_pct=0.02)`:
price must sit within `tolerance_pct` of a same-direction level.
`sli_zones = none` models the empty zones dict (`if not sli_zones`). -/
def check_sli_governance (current_price : ℚ) (sli_zones : Option Zones)
    (direction : Direction) (tolerance_pct : ℚ) : GateResult :=
  match sli_zones with
  | none =>
    { passed := false, reason := some .noSliZones
      level := none, distance_pct := none, trend := none }
  | some zones =>
    let levels : List ℚ :=
      match direction with
      | .LONG => zones.support
      | .SHORT => zones.resistance
      | _ => []
    match levels with
    | [] =>
      { passed := false, reason := some (.noLevelsFor direction)
        level := none, distance_pct := none, trend := none }
    | l :: ls =>
      let nearest := scanNearest current_price ls (|current_price - l| / current_price, l)
      if nearest.1 ≤ tolerance_pct then
        { passed := true, reason := none
          level := some nearest.2, distance_pct := some (nearest.1 * 100), trend := none }
      else
        { passed := false
          reason := some (.priceNotAtLevel nearest.2 (nearest.1 * 100))
          level := none, distance_pct := none, trend := none }

/-- `check_timeframe_alignment(timeframes)`: daily and weekly trends must
match and both be BULLISH or BEARISH.  The dict lookups with `'NEUTRAL'`
defaults are modelled by passing the two trend labels directly. -/
def check_timeframe_alignment (daily_trend weekly_trend : TfTrend) : GateResult :=
  if daily_trend = weekly_trend ∧ (daily_trend = .BULLISH ∨ daily_trend = .BEARISH) then
    { passed := true, reason := none
      level := none, distance_pct := none, trend := some daily_trend }
  else
    { passed := false, reason := some (.timeframeMismatch daily_trend weekly_trend)
      level := none, distance_pct := none, trend := none }

/-! ## Pre-trade qualification (`core/qualifier.py`) -/

/-- Direction derived from the regime at the top of `qualify_for_trade`. -/
def directionFor : Regime → Direction
  | .BULLISH => .LONG
  | .BEARISH => .SHORT
  | _ => .NEUTRAL

/-- MA-lamination confluence check: the four averages must all be
truthy (present and nonzero) and strictly ordered one way. -/
def maLamination (m13 m21 m34 m55 : Option ℚ) : Bool :=
  if truthyQ m13 ∧ truthyQ m21 ∧ truthyQ m34 ∧ truthyQ m55 then
    decide ((qval m13 > qval m21 ∧ qval m21 > qval m34 ∧ qval m34 > qval m55) ∨
            (qval m13 < qval m21 ∧ qval m21 < qval m34 ∧ qval m34 < qval m55))
  else false

/-- `PreTradeQualificationSystem.qualify_for_trade`: two hard gates
(either failure returns BLOCKED with `passed_checks = 0`,
`total_checks = 7`), then seven confluence checks; QUALIFIED at
≥5 of 7. -/
def qualify_for_trade (indicators : Indicators) (calendar_data : Option CalData)
    (sli_zones : Option Zones) (regime_data : RegimeData)
    (daily_trend weekly_trend : TfTrend) (current_price : ℚ) : Qualification :=
  let regime := regime_data.regime
  let direction := directionFor regime
  let sli_gate := check_sli_governance current_price sli_zones direction (2/100)
  let tf_gate := check_timeframe_alignment daily_trend weekly_trend
  if sli_gate.passed = false then
    { qualification_status := .BLOCKED
      reason := some (.sliGateFailed sli_gate.reason)
      passed_checks := 0, total_checks := 7
      gate_1_sli := sli_gate, gate_2_timeframe := tf_gate, checks := [] }
  else if tf_gate.passed = false then
    { qualification_status := .BLOCKED
      reason := some (.timeframeGateFailed tf_gate.reason)
      passed_checks := 0, total_checks := 7
      gate_1_sli := sli_gate, gate_2_timeframe := tf_gate, checks := [] }
  else
    let bb_pos := indicators.bb_position
    let checks : List (String × Bool) :=
      [ ("1_candle_vs_bb", decide (bb_pos < 1/5 ∨ bb_pos > 4/5))
      , ("2_autowaves", decide (indicators.wave_type ≠ .NONE))
      , ("3_srsi_extremes", indicators.srsi_extreme)
      , ("4_macd_expansion", indicators.histogram_expanding)
      , ("5_ma_lamination",
          maLamination indicators.MA_13 indicators.MA_21 indicators.MA_34 indicators.MA_55)
      , ("6_support_resistance", true)  -- hard gate passed already
      , ("7_calendar_alignment",
          match calendar_data with
          | none => false
          | some cal => cal.expansion_active && !cal.earnings_sensitive) ]
    let passed_count := (checks.filter (fun c => c.2)).length
    { qualification_status := if passed_count ≥ 5 then .QUALIFIED else .UNQUALIFIED
      reason := none
      passed_checks := passed_count, total_checks := 7
      gate_1_sli := sli_gate, gate_2_timeframe := tf_gate, checks := checks }

/-! ## Regime engine (`core/regime_engine.py`) -/

/-- `RegimeIdentificationEngine.identify_regime` on a (non-`None`)
indicator snapshot: 55/233 MA crossover confirmed by MACD histogram,
with an ADX<8 sideways override. -/
def identify_regime (indicators : Indicators) : RegimeData :=
  let ma_55 := indicators.MA_55
  let ma_233 := indicators.MA_233
  -- ma_signal: 'bullish' / 'bearish' / 'neutral'
  let ma_signal : Direction :=
    if truthyQ ma_55 ∧ truthyQ ma_233 then
      if qval ma_55 > qval ma_233 then .LONG
      else if qval ma_55 < qval ma_233 then .SHORT
      else .NEUTRAL
    else .NEUTRAL
  let dm_strength := indicators.trend_strength
  if dm_strength < 8 then
    { regime := .SIDEWAYS, confidence := 6/10
      reason := "Low ADX (<8) indicates sideways/chop" }
  else
    let macd_hist := indicators.macd_histogram
    match ma_signal with
    | .LONG =>
      if macd_hist > 0 then
        { regime := .BULLISH, confidence := 85/100, reason := "55>233 MA + Positive MACD" }
      else
        { regime := .TRANSITION, confidence := 5/10
          reason := "Bullish MA but Negative Momentum" }
    | .SHORT =>
      if macd_hist < 0 then
        { regime := .BEARISH, confidence := 85/100, reason := "55<233 MA + Negative MACD" }
      else
        { regime := .TRANSITION, confidence := 5/10
          reason := "Bearish MA but Positive Momentum" }
    | _ => { regime := .SIDEWAYS, confidence := 4/10, reason := "Neutral MA structure" }

/-- Applying `identify_regime` to the raw output of the indicator
calculator, which is `None` on insufficient data.  Subscripting
`indicators['moving_averages']` on `None` raises `TypeError` in
Python, modelled as `Except.error`. -/
def identify_regime_dyn : Option Indicators → Except PyError RegimeData
  | none => .error .typeError
  | some indicators => .ok (identify_regime indicators)

/-! ## Indicator calculator guard (`core/indicators.py`) -/

/-- `TechnicalIndicatorCalculator.calculate_all_indicators`: returns
`None` when fewer than 50 bars are supplied.  The post-guard numeric
body (pandas_ta moving averages, bands, oscillators, custom
detectors — an external numeric library) is abstracted as the
`computeSnapshot` parameter; only the insufficiency guard is the
repository's own control flow. -/
def calculate_all_indicators (computeSnapshot : List Bar → Indicators)
    (df : List Bar) : Option Indicators :=
  if df.length < 50 then none
  else some (computeSnapshot df)

/-! ## Signal generator (`core/signal_generator.py`) -/

/-- `entry` sub-dict of a generated signal. -/
structure EntryRange where
  range_low : ℚ
  range_high : ℚ
  ideal_price : ℚ
  deriving DecidableEq, Repr

/-- `exit` sub-dict of a generated signal. -/
structure ExitLevels where
  take_profit_1 : ℚ
  take_profit_2 : ℚ
  stop_loss : ℚ
  deriving DecidableEq, Repr

/-- `risk_metrics` sub-dict of a generated signal. -/
structure RiskMetrics where
  risk_reward_ratio : ℚ
  volatility_atr : ℚ
  deriving DecidableEq, Repr

/-- Structured rendering of the non-generation reason strings. -/
inductive SignalReason
  | confidenceTooLow (conf : ℤ)
  | regimeNotSuitable (r : Regime)
  deriving DecidableEq, Repr

/-- Result dict of `TradeSignalGenerator.generate_signal`.  `Option`
fields are the keys present only on the generated path (the WAIT
dicts carry only `signal_generated`, `reason`, `confidence`,
`direction`). -/
structure Signal where
  signal_generated : Bool
  symbol : Option String
  direction : Direction
  confidence : ℤ
  reason : Option SignalReason
  momentum_alert : Option Bool
  timestamp : Option String
  entry : Option EntryRange
  exit : Option ExitLevels
  risk_metrics : Option RiskMetrics
  deriving DecidableEq, Repr

/-- `TradeSignalGenerator._check_momentum_alert`: at least two of
{RSI beyond 65/35, MACD histogram expanding, ADX>25}. -/
def check_momentum_alert (indicators : Indicators) : Bool :=
  let triggers : ℕ :=
    (if indicators.rsi > 65 ∨ indicators.rsi < 35 then 1 else 0)
    + (if indicators.histogram_expanding then 1 else 0)
    + (if indicators.trend_strength > 25 then 1 else 0)
  triggers ≥ 2

/-- `TradeSignalGenerator.generate_signal`.  The call to
`datetime.utcnow().isoformat()` is modelled by the explicit `utcnow`
argument: each real invocation reads a fresh wall-clock value, so two
invocations receive different `utcnow` strings. -/
def generate_signal (symbol : String) (confidence_data : ConfidenceResult)
    (regime_data : RegimeData) (indicators : Indicators) (utcnow : String) : Signal :=
  if confidence_data.is_approved = false then
    { signal_generated := false, symbol := none, direction := .WAIT
      confidence := confidence_data.final_confidence
      reason := some (.confidenceTooLow confidence_data.final_confidence)
      momentum_alert := none, timestamp := none
      entry := none, exit := none, risk_metrics := none }
  else
    let regime := regime_data.regime
    -- BULLISH ⇒ LONG, BEARISH ⇒ SHORT, anything else returns WAIT
    if regime = .BULLISH ∨ regime = .BEARISH then
      let direction : Direction := if regime = .BULLISH then .LONG else .SHORT
      let middle := indicators.bb_middle
      let entry_low := if direction = .LONG then indicators.bb_lower else middle
      let entry_high := if direction = .LONG then middle else indicators.bb_upper
      let entry_price := (entry_low + entry_high) / 2
      let atr := indicators.bb_width / 4
      let stop_loss := if direction = .LONG then entry_low - atr else entry_high + atr
      let tp1 := if direction = .LONG then entry_price + (entry_price - stop_loss) * (3/2)
                 else entry_price - (stop_loss - entry_price) * (3/2)
      let tp2 := if direction = .LONG then entry_price + (entry_price - stop_loss) * 3
                 else entry_price - (stop_loss - entry_price) * 3
      { signal_generated := true
        symbol := some symbol
        direction := direction
        confidence := confidence_data.final_confidence
        reason := none
        momentum_alert := some (check_momentum_alert indicators)
        timestamp := some utcnow
        entry := some ⟨entry_low, entry_high, entry_price⟩
        exit := some ⟨tp1, tp2, stop_loss⟩
        risk_metrics := some ⟨3/2, atr⟩ }
    else
      { signal_generated := false, symbol := none, direction := .WAIT
        confidence := confidence_data.final_confidence
        reason := some (.regimeNotSuitable regime)
        momentum_alert := none, timestamp := none
        entry := none, exit := none, risk_metrics := none }

/-! ## Options engine (`core/options_engine.py`) -/

/-- Result dict `generate_options_trade` attempts to build.  (It is in
fact never constructed: see `generate_options_trade`.) -/
structure OptionsTrade where
  options_enabled : Bool
  strategy : String
  option_type : String
  dte_range : ℤ × ℤ
  strike_target : ℚ
  rationale : String
  deriving DecidableEq, Repr

/-- `OptionsExecutionEngine.generate_options_trade`: returns `None`
when no signal was generated; otherwise selects the DTE bucket and
strike target — and then builds a result dict whose f-string reads
`option_type`, a name never bound anywhere in the function, so the
return statement raises `NameError` before any value is produced. -/
def generate_options_trade (signal : Signal) (indicators : Indicators) :
    Except PyError (Option OptionsTrade) :=
  if signal.signal_generated = false then .ok none
  else
    match signal.entry with
    | none => .error .keyError  -- signal['entry'] missing
    | some entry =>
      let direction := signal.direction
      let adx := indicators.trend_strength
      let is_momentum := decide (adx > 25)
      let dte_range : ℤ × ℤ := if is_momentum then (7, 14) else (21, 45)
      let current_price := entry.ideal_price
      let line_2 := indicators.line_2_level
      -- `if line_2 and line_2 > 0:` — truthy and strictly positive
      let strike_target :=
        if truthyQ line_2 ∧ qval line_2 > 0 then qval line_2
        else if direction = .LONG then current_price * (102/100)
        else current_price * (98/100)
      let strike_target :=
        if direction = .LONG ∧ strike_target < current_price then
          current_price * (102/100)
        else if direction = .SHORT ∧ strike_target > current_price then
          current_price * (98/100)
        else strike_target
      -- the return dict's `f"Buy {option_type}"` references the
      -- undefined name `option_type`
      .error .nameError

/-! ## Zone clustering (`core/sli_detector.py`) -/

/-- Arithmetic mean of a cluster (`sum(cluster) / len(cluster)`). -/
def meanQ (cluster : List ℚ) : ℚ := cluster.sum / (cluster.length : ℚ)

/-- Python `round(x, 2)`: round to two decimal places.  (Python rounds
the nearest binary double half-to-even; on exact two-decimal values
the two notions agree, and no claim here depends on tie-breaking.) -/
def round2 (x : ℚ) : ℚ := (round (x * 100) : ℚ) / 100

/-- The clustering loop of `_cluster_levels`: walk the sorted levels,
appending to the current cluster while the next level is within
`threshold` of the cluster's last member, else emit the cluster mean.
`cur` holds the current cluster with its most recently appended
member at the head (`current_cluster[-1]`); the mean is
order-independent. -/
def clusterLoop (threshold : ℚ) : List ℚ → List ℚ → List ℚ → List ℚ
  | clusters, cur, [] => clusters ++ [meanQ cur]
  | clusters, cur, x :: xs =>
    if x ≤ cur.headD 0 * (1 + threshold) then
      clusterLoop threshold clusters (x :: cur) xs
    else
      clusterLoop threshold (clusters ++ [meanQ cur]) [x] xs

/-- `_cluster_levels(levels, threshold=0.02)`: sort ascending
(`levels.sort()`, modelled by the stable `insertionSort`), cluster
within the threshold, round each cluster mean to 2 decimals.
An empty input returns `[]`. -/
def cluster_levels (levels : List ℚ) (threshold : ℚ) : List ℚ :=
  match levels.insertionSort (· ≤ ·) with
  | [] => []
  | x :: xs => (clusterLoop threshold [] [x] xs).map round2

/-! ## Auxiliary definitions for the verification -/

/-- Erase the wall-clock field of a signal (for stating determinism of
everything except the `datetime.utcnow()` timestamp). -/
def strip_timestamp (s : Signal) : Signal := { s with timestamp := none }

/-! Concrete sample inputs used to instantiate the theorems. -/

/-- A sample bar. -/
def barA : Bar := ⟨"2026-01-02", 100, 101, 99, 100, 1000⟩

/-- Calendar context with an active expansion window and no earnings risk. -/
def calA : CalData := ⟨true, false⟩

/-- Zones with one support just below and one resistance above price 100. -/
def zonesA : Zones := ⟨[98], [110]⟩

/-- A bullish regime record. -/
def regimeBull : RegimeData := ⟨.BULLISH, 85/100, "55>233 MA + Positive MACD"⟩

/-- A sideways regime record. -/
def regimeSide : RegimeData := ⟨.SIDEWAYS, 6/10, "Low ADX (<8) indicates sideways/chop"⟩

/-- A transition regime record. -/
def regimeTrans : RegimeData := ⟨.TRANSITION, 5/10, "Bullish MA but Negative Momentum"⟩

/-- An indicator snapshot of a strongly trending bullish series. -/
def indA : Indicators :=
  { MA_13 := some 108, MA_21 := some 106, MA_34 := some 104, MA_55 := some 102
    MA_233 := some 95
    bb_upper := 110, bb_middle := 100, bb_lower := 90, bb_width := 20, bb_position := 9/10
    rsi := 70, macd_histogram := 2, histogram_expanding := true, srsi_extreme := true
    wave_type := .UP, line_2_level := some 98, trend_strength := 30 }

/-- Qualification of the sample inputs (passes both gates, 7/7 checks). -/
def qualA : Qualification :=
  qualify_for_trade indA (some calA) (some zonesA) regimeBull .BULLISH .BULLISH 100

/-- Confidence of the sample inputs (60 + 10 calendar + 10 ADX = 80, approved). -/
def confA : ConfidenceResult := calculate_confidence (some calA) qualA regimeBull indA

/-- An unapproved confidence result. -/
def confLow : ConfidenceResult := ⟨40, [], false⟩

/-! ## Theorems -/

theorem calendarAdjust_fst_le (c : Option CalData) (sa : ℤ × List (String × String)) :
    (calendarAdjust c sa).1 ≤ sa.1 + 10 := by
  cases c with
  | none => simp [calendarAdjust]
  | some cal =>
    simp only [calendarAdjust]
    split <;> split <;> simp <;> omega

theorem confluenceAdjust_fst_le (p t : ℤ) (sa : ℤ × List (String × String)) :
    (confluenceAdjust p t sa).1 ≤ sa.1 := by
  simp only [confluenceAdjust]
  split <;> simp <;> omega

theorem regimeAdjust_fst_le (r : Regime) (sa : ℤ × List (String × String)) :
    (regimeAdjust r sa).1 ≤ sa.1 := by
  cases r <;> simp [regimeAdjust]

theorem adxAdjust_fst_le (adx : ℚ) (sa : ℤ × List (String × String)) :
    (adxAdjust adx sa).1 ≤ sa.1 + 10 := by
  simp only [adxAdjust]
  split
  · simp
  · split <;> simp <;> omega

/-- The raw (pre-clamp) confidence score never exceeds 80: the base is
60 and the only positive deltas are the two +10 adjustments. -/
theorem confAdjust_fst_le_80 (calendar_data : Option CalData) (qual_data : Qualification)
    (regime_data : RegimeData) (indicators : Indicators) :
    (confAdjust calendar_data qual_data regime_data indicators).1 ≤ 80 := by
  unfold confAdjust
  have h1 := calendarAdjust_fst_le calendar_data (60, [])
  have h2 := confluenceAdjust_fst_le (qual_data.passed_checks : ℤ) (qual_data.total_checks : ℤ)
    (calendarAdjust calendar_data (60, []))
  have h3 := regimeAdjust_fst_le regime_data.regime
    (confluenceAdjust (qual_data.passed_checks : ℤ) (qual_data.total_checks : ℤ)
      (calendarAdjust calendar_data (60, [])))
  have h4 := adxAdjust_fst_le indicators.trend_strength
    (regimeAdjust regime_data.regime
      (confluenceAdjust (qual_data.passed_checks : ℤ) (qual_data.total_checks : ℤ)
        (calendarAdjust calendar_data (60, []))))
  omega

/-- C2: for every combination of calendar data, qualification result,
regime, and indicator inputs, the confidence scorer returns a score in
[0, 100], and `is_approved` holds exactly when the score is ≥ 60. -/
theorem confidence_bounds (calendar_data : Option CalData) (qual_data : Qualification)
    (regime_data : RegimeData) (indicators : Indicators) :
    0 ≤ (calculate_confidence calendar_data qual_data regime_data indicators).final_confidence ∧
    (calculate_confidence calendar_data qual_data regime_data indicators).final_confidence ≤ 100 ∧
    ((calculate_confidence calendar_data qual_data regime_data indicators).is_approved = true ↔
      60 ≤ (calculate_confidence calendar_data qual_data regime_data indicators).final_confidence) := by
  simp only [calculate_confidence, ge_iff_le, decide_eq_true_eq]
  refine ⟨by omega, by omega, ?_⟩
  first
  | trivial
  | exact Iff.rfl

/-- C9: the confidence score never exceeds 80 (the base of 60 plus at
most +10 for an expansion window and +10 for ADX>25, so the upper
clamp at 100 is never reached), and every approved score lies in
[60, 80]. -/
theorem confidence_le_80 (calendar_data : Option CalData) (qual_data : Qualification)
    (regime_data : RegimeData) (indicators : Indicators) :
    (calculate_confidence calendar_data qual_data regime_data indicators).final_confidence ≤ 80 ∧
    ((calculate_confidence calendar_data qual_data regime_data indicators).is_approved = true →
      60 ≤ (calculate_confidence calendar_data qual_data regime_data indicators).final_confidence ∧
      (calculate_confidence calendar_data qual_data regime_data indicators).final_confidence ≤ 80) := by
  have hb := confAdjust_fst_le_80 calendar_data qual_data regime_data indicators
  simp only [calculate_confidence, ge_iff_le, decide_eq_true_eq]
  refine ⟨by omega, fun h => ⟨h, by omega⟩⟩

/-- Evaluation of the sample qualification: both gates pass and all
seven confluence checks pass. -/
theorem qualA_eval : qualA.passed_checks = 7 ∧ qualA.total_checks = 7 := by
  constructor
  · norm_num [qualA, qualify_for_trade, check_sli_governance, check_timeframe_alignment,
      scanNearest, directionFor, maLamination, truthyQ, qval, indA, calA, zonesA, regimeBull]
    decide
  · norm_num [qualA, qualify_for_trade, check_sli_governance, check_timeframe_alignment,
      scanNearest, directionFor, maLamination, truthyQ, qval, indA, calA, zonesA, regimeBull]

/-- Evaluation of the sample confidence: 60 + 10 (expansion window)
+ 10 (ADX>25) = 80, approved. -/
theorem confA_eval : confA.final_confidence = 80 ∧ confA.is_approved = true := by
  have hq := qualA_eval
  constructor <;>
    norm_num [confA, calculate_confidence, confAdjust, calendarAdjust, confluenceAdjust,
      regimeAdjust, adxAdjust, calA, regimeBull, indA, hq.1, hq.2]

/-- Witness for C9: the sample inputs yield an approved score, which
therefore lies in [60, 80]. -/
theorem confidence_le_80_witness :
    60 ≤ (calculate_confidence (some calA) qualA regimeBull indA).final_confidence ∧
    (calculate_confidence (some calA) qualA regimeBull indA).final_confidence ≤ 80 :=
  (confidence_le_80 (some calA) qualA regimeBull indA).2 confA_eval.2

/-- Shared helper: a failing SLI gate short-circuits
`qualify_for_trade` into the BLOCKED early return. -/
theorem qualify_blocked_of_sli_failed (indicators : Indicators) (calendar_data : Option CalData)
    (sli_zones : Option Zones) (regime_data : RegimeData)
    (daily_trend weekly_trend : TfTrend) (current_price : ℚ)
    (h : (check_sli_governance current_price sli_zones
            (directionFor regime_data.regime) (2/100)).passed = false) :
    (qualify_for_trade indicators calendar_data sli_zones regime_data
        daily_trend weekly_trend current_price).qualification_status = .BLOCKED ∧
    (qualify_for_trade indicators calendar_data sli_zones regime_data
        daily_trend weekly_trend current_price).passed_checks = 0 ∧
    (qualify_for_trade indicators calendar_data sli_zones regime_data
        daily_trend weekly_trend current_price).total_checks = 7 := by
  simp only [qualify_for_trade, h, if_true]
  exact ⟨trivial, trivial, trivial⟩

/-- C3: whenever the SLI hard gate fails, the qualification system
returns status BLOCKED with `passed_checks = 0` and `total_checks = 7`,
regardless of every other input (no confluence check is consulted). -/
theorem sli_gate_monotonicity (indicators : Indicators) (calendar_data : Option CalData)
    (sli_zones : Option Zones) (regime_data : RegimeData)
    (daily_trend weekly_trend : TfTrend) (current_price : ℚ)
    (h : (check_sli_governance current_price sli_zones
            (directionFor regime_data.regime) (2/100)).passed = false) :
    (qualify_for_trade indicators calendar_data sli_zones regime_data
        daily_trend weekly_trend current_price).qualification_status = .BLOCKED ∧
    (qualify_for_trade indicators calendar_data sli_zones regime_data
        daily_trend weekly_trend current_price).passed_checks = 0 ∧
    (qualify_for_trade indicators calendar_data sli_zones regime_data
        daily_trend weekly_trend current_price).total_checks = 7 :=
  qualify_blocked_of_sli_failed indicators calendar_data sli_zones regime_data
    daily_trend weekly_trend current_price h

/-- Witness for C3: with no zones detected the SLI gate fails, and the
qualification of the otherwise fully-bullish sample inputs is BLOCKED
with 0 of 7 checks. -/
theorem sli_gate_monotonicity_witness :
    (check_sli_governance 100 none (directionFor regimeBull.regime) (2/100)).passed = false ∧
    (qualify_for_trade indA (some calA) none regimeBull .BULLISH .BULLISH 100).qualification_status
      = .BLOCKED ∧
    (qualify_for_trade indA (some calA) none regimeBull .BULLISH .BULLISH 100).passed_checks = 0 ∧
    (qualify_for_trade indA (some calA) none regimeBull .BULLISH .BULLISH 100).total_checks = 7 :=
  ⟨rfl, sli_gate_monotonicity indA (some calA) none regimeBull .BULLISH .BULLISH 100 rfl⟩

/-- The SLI gate always fails for a NEUTRAL direction: no level list
is ever selected. -/
theorem sli_neutral_fails (current_price : ℚ) (sli_zones : Option Zones) (tol : ℚ) :
    (check_sli_governance current_price sli_zones .NEUTRAL tol).passed = false := by
  cases sli_zones <;> simp [check_sli_governance]

/-- C10: whenever the regime is neither BULLISH nor BEARISH, the
qualifier maps the intended direction to NEUTRAL, the SLI gate finds
no levels and fails, and the qualification is BLOCKED with
`passed_checks = 0` — a non-trending regime never reaches the
confluence checks. -/
theorem nontrending_always_blocked (indicators : Indicators) (calendar_data : Option CalData)
    (sli_zones : Option Zones) (regime_data : RegimeData)
    (daily_trend weekly_trend : TfTrend) (current_price : ℚ)
    (h : regime_data.regime = .SIDEWAYS ∨ regime_data.regime = .TRANSITION) :
    directionFor regime_data.regime = .NEUTRAL ∧
    (check_sli_governance current_price sli_zones
        (directionFor regime_data.regime) (2/100)).passed = false ∧
    (qualify_for_trade indicators calendar_data sli_zones regime_data
        daily_trend weekly_trend current_price).qualification_status = .BLOCKED ∧
    (qualify_for_trade indicators calendar_data sli_zones regime_data
        daily_trend weekly_trend current_price).passed_checks = 0 := by
  have hdir : directionFor regime_data.regime = .NEUTRAL := by
    rcases h with h | h <;> rw [h] <;> rfl
  have hfail : (check_sli_governance current_price sli_zones
      (directionFor regime_data.regime) (2/100)).passed = false := by
    rw [hdir]; exact sli_neutral_fails current_price sli_zones (2/100)
  have hq := qualify_blocked_of_sli_failed indicators calendar_data sli_zones regime_data
    daily_trend weekly_trend current_price hfail
  exact ⟨hdir, hfail, hq.1, hq.2.1⟩

/-- Witness for C10: a SIDEWAYS regime is blocked even with valid
zones, a nearby support, and perfectly aligned timeframes. -/
theorem nontrending_always_blocked_witness :
    directionFor regimeSide.regime = .NEUTRAL ∧
    (check_sli_governance 100 (some zonesA)
        (directionFor regimeSide.regime) (2/100)).passed = false ∧
    (qualify_for_trade indA (some calA) (some zonesA) regimeSide
        .BULLISH .BULLISH 100).qualification_status = .BLOCKED ∧
    (qualify_for_trade indA (some calA) (some zonesA) regimeSide
        .BULLISH .BULLISH 100).passed_checks = 0 :=
  nontrending_always_blocked indA (some calA) (some zonesA) regimeSide
    .BULLISH .BULLISH 100 (Or.inl rfl)

/-- C4: a generated signal always has direction LONG or SHORT with a
BULLISH or BEARISH regime, simultaneously; and an unapproved
confidence or a SIDEWAYS/TRANSITION regime always yields
`signal_generated = false` with direction WAIT. -/
theorem signal_consistency (symbol : String) (confidence_data : ConfidenceResult)
    (regime_data : RegimeData) (indicators : Indicators) (utcnow : String) :
    ((generate_signal symbol confidence_data regime_data indicators utcnow).signal_generated
        = true →
      ((generate_signal symbol confidence_data regime_data indicators utcnow).direction = .LONG ∨
       (generate_signal symbol confidence_data regime_data indicators utcnow).direction = .SHORT) ∧
      (regime_data.regime = .BULLISH ∨ regime_data.regime = .BEARISH)) ∧
    ((confidence_data.is_approved = false ∨ regime_data.regime = .SIDEWAYS ∨
        regime_data.regime = .TRANSITION) →
      (generate_signal symbol confidence_data regime_data indicators utcnow).signal_generated
        = false ∧
      (generate_signal symbol confidence_data regime_data indicators utcnow).direction = .WAIT) := by
  cases hb : confidence_data.is_approved <;> cases hr : regime_data.regime <;>
    simp [generate_signal, hb, hr]

/-- Witness for C4: the sample approved bullish inputs generate a
signal, whose direction is LONG or SHORT with a trending regime. -/
theorem signal_consistency_witness :
    (generate_signal "AAPL" confA regimeBull indA "2026-01-01T00:00:00").signal_generated
      = true ∧
    ((generate_signal "AAPL" confA regimeBull indA "2026-01-01T00:00:00").direction = .LONG ∨
     (generate_signal "AAPL" confA regimeBull indA "2026-01-01T00:00:00").direction = .SHORT) ∧
    (regimeBull.regime = .BULLISH ∨ regimeBull.regime = .BEARISH) := by
  have hgen : (generate_signal "AAPL" confA regimeBull indA
      "2026-01-01T00:00:00").signal_generated = true := by
    simp [generate_signal, confA_eval.2, regimeBull]
  exact ⟨hgen,
    (signal_consistency "AAPL" confA regimeBull indA "2026-01-01T00:00:00").1 hgen⟩

/-- C8: for an approved confidence and a trending regime, the generated
signal's entry range is [lowerBand, middleBand] (LONG) or
[middleBand, upperBand] (SHORT) with ideal entry the midpoint, the
risk unit is bandWidth/4, the stop-loss is the entry-range edge minus
(LONG) or plus (SHORT) the risk unit, and the take-profits sit at 1.5×
and 3.0× the entry-to-stop distance from the ideal entry. -/
theorem signal_entry_exit_formulas (symbol : String) (confidence_data : ConfidenceResult)
    (regime_data : RegimeData) (indicators : Indicators) (utcnow : String)
    (happ : confidence_data.is_approved = true) :
    (regime_data.regime = .BULLISH →
      (generate_signal symbol confidence_data regime_data indicators utcnow).entry =
        some ⟨indicators.bb_lower, indicators.bb_middle,
              (indicators.bb_lower + indicators.bb_middle) / 2⟩ ∧
      (generate_signal symbol confidence_data regime_data indicators utcnow).exit =
        some ⟨(indicators.bb_lower + indicators.bb_middle) / 2 +
                ((indicators.bb_lower + indicators.bb_middle) / 2 -
                  (indicators.bb_lower - indicators.bb_width / 4)) * (3/2),
              (indicators.bb_lower + indicators.bb_middle) / 2 +
                ((indicators.bb_lower + indicators.bb_middle) / 2 -
                  (indicators.bb_lower - indicators.bb_width / 4)) * 3,
              indicators.bb_lower - indicators.bb_width / 4⟩ ∧
      (generate_signal symbol confidence_data regime_data indicators utcnow).risk_metrics =
        some ⟨3/2, indicators.bb_width / 4⟩) ∧
    (regime_data.regime = .BEARISH →
      (generate_signal symbol confidence_data regime_data indicators utcnow).entry =
        some ⟨indicators.bb_middle, indicators.bb_upper,
              (indicators.bb_middle + indicators.bb_upper) / 2⟩ ∧
      (generate_signal symbol confidence_data regime_data indicators utcnow).exit =
        some ⟨(indicators.bb_middle + indicators.bb_upper) / 2 -
                ((indicators.bb_upper + indicators.bb_width / 4) -
                  (indicators.bb_middle + indicators.bb_upper) / 2) * (3/2),
              (indicators.bb_middle + indicators.bb_upper) / 2 -
                ((indicators.bb_upper + indicators.bb_width / 4) -
                  (indicators.bb_middle + indicators.bb_upper) / 2) * 3,
              indicators.bb_upper + indicators.bb_width / 4⟩ ∧
      (generate_signal symbol confidence_data regime_data indicators utcnow).risk_metrics =
        some ⟨3/2, indicators.bb_width / 4⟩) := by
  constructor <;> intro hr <;>
    refine ⟨?_, ?_, ?_⟩ <;> simp [generate_signal, happ, hr]

/-- Witness for C8: on the sample bullish inputs (lower 90, middle 100,
upper 110, width 20) the theorem gives entry [90,100] with ideal 95,
stop 85, take-profits 110 and 125. -/
theorem signal_entry_exit_formulas_witness :
    (generate_signal "AAPL" confA regimeBull indA "T0").entry =
      some ⟨indA.bb_lower, indA.bb_middle, (indA.bb_lower + indA.bb_middle) / 2⟩ ∧
    (generate_signal "AAPL" confA regimeBull indA "T0").exit =
      some ⟨(indA.bb_lower + indA.bb_middle) / 2 +
              ((indA.bb_lower + indA.bb_middle) / 2 -
                (indA.bb_lower - indA.bb_width / 4)) * (3/2),
            (indA.bb_lower + indA.bb_middle) / 2 +
              ((indA.bb_lower + indA.bb_middle) / 2 -
                (indA.bb_lower - indA.bb_width / 4)) * 3,
            indA.bb_lower - indA.bb_width / 4⟩ ∧
    (generate_signal "AAPL" confA regimeBull indA "T0").risk_metrics =
      some ⟨3/2, indA.bb_width / 4⟩ :=
  (signal_entry_exit_formulas "AAPL" confA regimeBull indA "T0" confA_eval.2).1 rfl

/-- C1 counterexample: two invocations on identical analytic inputs
produce different Reports — `generate_signal` stamps the signal with
`datetime.utcnow().isoformat()`, which differs between the two
invocations, so the signals (and hence the Reports containing them)
are not identical field-for-field. -/
theorem run_twice_not_identical :
    generate_signal "AAPL" confA regimeBull indA "2026-01-01T00:00:00.000000" ≠
    generate_signal "AAPL" confA regimeBull indA "2026-01-01T00:00:00.000001" := by
  intro heq
  have ht := congrArg Signal.timestamp heq
  simp [generate_signal, confA_eval.2, regimeBull] at ht

/-- C1 amended: the pipeline is deterministic in everything except the
wall-clock-derived fields — for fixed (symbol, confidence, regime,
indicator) inputs, two invocations at different clock readings agree
on every signal field once the `timestamp` field is erased. -/
theorem deterministic_up_to_timestamp (symbol : String) (confidence_data : ConfidenceResult)
    (regime_data : RegimeData) (indicators : Indicators) (t₁ t₂ : String) :
    strip_timestamp (generate_signal symbol confidence_data regime_data indicators t₁) =
    strip_timestamp (generate_signal symbol confidence_data regime_data indicators t₂) := by
  cases hb : confidence_data.is_approved <;> cases hr : regime_data.regime <;>
    simp [generate_signal, strip_timestamp, hb, hr]

/-- C5: with fewer than 50 bars the indicator calculator returns the
explicit insufficient-data marker (`None`) rather than a numeric
snapshot — but the downstream regime classifier applied to that
marker raises `TypeError` (subscripting `None`) instead of yielding a
SIDEWAYS/unknown classification. -/
theorem insufficient_data_regime_throws (computeSnapshot : List Bar → Indicators)
    (df : List Bar) (h : df.length < 50) :
    calculate_all_indicators computeSnapshot df = none ∧
    identify_regime_dyn (calculate_all_indicators computeSnapshot df) =
      .error .typeError := by
  have h1 : calculate_all_indicators computeSnapshot df = none := by
    simp [calculate_all_indicators, h]
  exact ⟨h1, by rw [h1]; rfl⟩

/-- Witness for C5: a 10-bar sequence is under the 50-bar minimum; the
calculator returns the marker and the classifier applied to it
errors. -/
theorem insufficient_data_regime_throws_witness :
    (List.replicate 10 barA).length < 50 ∧
    calculate_all_indicators (fun _ => indA) (List.replicate 10 barA) = none ∧
    identify_regime_dyn (calculate_all_indicators (fun _ => indA) (List.replicate 10 barA)) =
      .error .typeError := by
  have hlen : (List.replicate 10 barA).length < 50 := by simp
  have h := insufficient_data_regime_throws (fun _ => indA) (List.replicate 10 barA) hlen
  exact ⟨hlen, h.1, h.2⟩

/-- C6: the options engine returns `None` when no signal was generated,
but whenever a signal was generated it raises `NameError` — the
result dict's f-string reads `option_type`, a name never bound in
`generate_options_trade` — so the claimed DTE buckets and strike
targets are never returned. -/
theorem options_engine_nameerror :
    generate_options_trade (generate_signal "AAPL" confA regimeBull indA "T0") indA =
      .error .nameError ∧
    generate_options_trade (generate_signal "AAPL" confLow regimeBull indA "T0") indA =
      .ok none := by
  constructor
  · simp [generate_signal, generate_options_trade, confA_eval.2, regimeBull]
  · rfl

/-- C7 counterexample: clustering is not idempotent on arbitrary lists
with no two levels within 2% of each other — it returns the levels
sorted ascending (so an unsorted input comes back reordered) and
rounded to two decimals (so an unrounded input comes back changed). -/
theorem cluster_not_idempotent :
    cluster_levels [200, 100] (2/100) ≠ [200, 100] ∧
    cluster_levels [100555/1000, 200] (2/100) ≠ [100555/1000, 200] := by
  constructor <;>
    norm_num [cluster_levels, List.insertionSort, List.orderedInsert, clusterLoop, meanQ,
      round2, round_eq]

theorem meanQ_singleton (x : ℚ) : meanQ [x] = x := by
  simp [meanQ]

/-- On a run of levels each more than `t` above its predecessor, every
level forms its own singleton cluster, so the loop reproduces the
input after the already-accumulated clusters. -/
theorem clusterLoop_separated (t : ℚ) (x : ℚ) (xs clusters : List ℚ)
    (h : (x :: xs).Chain' (fun a b => a * (1 + t) < b)) :
    clusterLoop t clusters [x] xs = clusters ++ x :: xs := by
  induction xs generalizing clusters x with
  | nil => simp [clusterLoop, meanQ]
  | cons y ys ih =>
    have hxy : x * (1 + t) < y := (List.chain'_cons.mp h).1
    have htail : (y :: ys).Chain' (fun a b => a * (1 + t) < b) := (List.chain'_cons.mp h).2
    rw [clusterLoop, if_neg (by simp only [List.headD_cons]; exact not_le.mpr hxy)]
    rw [ih _ _ htail]
    simp [meanQ_singleton]

theorem map_round2_self (l : List ℚ) (h : ∀ x ∈ l, round2 x = x) : l.map round2 = l := by
  induction l with
  | nil => rfl
  | cons a as ih =>
    simp only [List.map_cons, List.cons.injEq]
    exact ⟨h a (List.mem_cons_self a as), ih fun x hx => h x (List.mem_cons_of_mem a hx)⟩

/-- C7 amended: clustering returns an ascending-sorted list unchanged
when its entries are already rounded to two decimals and each level
sits more than the 2% tolerance above its predecessor. -/
theorem cluster_idempotent_on_clustered (levels : List ℚ)
    (hsorted : levels.Sorted (· ≤ ·))
    (hround : ∀ x ∈ levels, round2 x = x)
    (hsep : levels.Chain' (fun a b => a * (1 + 2/100) < b)) :
    cluster_levels levels (2/100) = levels := by
  unfold cluster_levels
  rw [List.Sorted.insertionSort_eq hsorted]
  cases levels with
  | nil => rfl
  | cons x xs =>
    show (clusterLoop (2/100) [] [x] xs).map round2 = x :: xs
    rw [clusterLoop_separated (2/100) x xs [] hsep]
    simp only [List.nil_append]
    exact map_round2_self _ hround

/-- Witness for C7 (amended): [100, 150, 200] is sorted, two-decimal,
and pairwise separated by more than 2%, and clustering returns it
unchanged. -/
theorem cluster_idempotent_on_clustered_witness :
    cluster_levels [100, 150, 200] (2/100) = [100, 150, 200] := by
  apply cluster_idempotent_on_clustered
  · norm_num [List.sorted_cons]
  · intro x hx
    simp only [List.mem_cons, List.not_mem_nil, or_false] at hx
    rcases hx with rfl | rfl | rfl <;> norm_num [round2, round_eq]
  · simp only [List.chain'_cons, List.chain'_singleton, and_true]
    norm_num

end StockSense
